import Mathlib

/-
Shallow embedding of the audio-capture-and-streaming pipeline of the
"Piltong recorder" React component (src/unnamed/part_000).

The component is single-threaded and event-driven: all application logic
runs as synchronous handlers on one logical thread.  We model the React
state hooks and refs as one record `AppState`, and each handler
(`stopRecording`, `startConversion`, the session callbacks `onmessage`,
`onerror`, `onclose`, the `onaudioprocess` tick and the 1-second timer)
as a function from `AppState` to `AppState` paired with the ordered list
of externally visible actions (resource acquisitions/releases, alerts,
logs) the handler performs, in program order.

Outcomes of the external browser/service calls (getUserMedia,
getDisplayMedia, decodeAudioData, the MediaRecorder constructor, the
wake-lock request) are supplied by a `StartEnv` record, so every control
path of `startConversion` is represented.

The PCM encoder is modelled over ℚ: the actual samples are finite
float32 values, multiplication by 32768 = 2^15 is exact in binary
floating point, and the JS `Int16Array` store truncates toward zero and
wraps modulo 2^16; all of that is exactly representable on rationals.
-/

namespace PiltongRecorder

/-- Base64 alphabet used by the JS `btoa` call inside `encode`. -/
def b64Chars : List Char :=
  "ABCDEFGHIJKLMNOPQRSTUVWXYZabcdefghijklmnopqrstuvwxyz0123456789+/".toList

/-- Character of the Base64 alphabet at a sextet value. -/
def b64Char (n : Nat) : Char := b64Chars.getD n 'A'

/-- Embeds `encode` (part_000 lines 9-16): the loop builds a latin1 string
from the bytes and `btoa` produces standard Base64 with '=' padding,
three input bytes per four output characters. -/
def encodeB64 : List Nat → List Char
  | [] => []
  | [b1] => [b64Char (b1 / 4), b64Char (b1 % 4 * 16), '=', '=']
  | [b1, b2] =>
      [b64Char (b1 / 4), b64Char (b1 % 4 * 16 + b2 / 16), b64Char (b2 % 16 * 4), '=']
  | b1 :: b2 :: b3 :: rest =>
      b64Char (b1 / 4) :: b64Char (b1 % 4 * 16 + b2 / 16) ::
      b64Char (b2 % 16 * 4 + b3 / 64) :: b64Char (b3 % 64) :: encodeB64 rest

/-- The string returned by `encode` on a byte sequence. -/
def encode (bytes : List Nat) : String := String.mk (encodeB64 bytes)

/-- JS ToIntegerOrInfinity on a finite value: truncation toward zero. -/
def jsTrunc (q : ℚ) : ℤ := if 0 ≤ q then ⌊q⌋ else ⌈q⌉

/-- JS ToInt16: reduce modulo 2^16, then reinterpret into the signed
16-bit range [-32768, 32768). -/
def toInt16 (n : ℤ) : ℤ :=
  if n % 65536 < 32768 then n % 65536 else n % 65536 - 65536

/-- Embeds the store `int16[i] = inputData[i] * 32768` of the
`onaudioprocess` handler (part_000 line 184): an `Int16Array` element
assignment applies JS ToInt16 (truncate, then wrap modulo 2^16, no
clamping). -/
def sampleToInt16 (x : ℚ) : ℤ := toInt16 (jsTrunc (x * 32768))

/-- Little-endian byte pair of one stored sample, as seen by the
`Uint8Array` view over the `Int16Array` buffer (part_000 line 186). -/
def sampleBytes (x : ℚ) : List Nat :=
  [(sampleToInt16 x % 65536).toNat % 256, (sampleToInt16 x % 65536).toNat / 256]

/-- Byte sequence of a whole PCM frame (the `Uint8Array(int16.buffer)`
of part_000 line 186), sample by sample. -/
def pcmBytes : List ℚ → List Nat
  | [] => []
  | x :: xs => sampleBytes x ++ pcmBytes xs

/-- Base64 payload produced for one input block by the `onaudioprocess`
handler (part_000 lines 179-186). -/
def frameBase64 (samples : List ℚ) : String := encode (pcmBytes samples)

/-- Source mode selector (part_000 line 25). -/
inductive SourceMode where
  | mic
  | youtube
  | video
  | audio
  deriving DecidableEq

/-- MediaRecorder state as read/written by the component. -/
inductive MRState where
  | inactive
  | recording
  deriving DecidableEq

/-- AudioContext handle: `closed` records whether `close()` has run. -/
structure AudioCtxState where
  closed : Bool
  deriving DecidableEq

/-- AudioBufferSourceNode handle for the file branch: `playing` records
whether `stop()` has been called on a started node. -/
structure FileSourceState where
  playing : Bool
  deriving DecidableEq

/-- Externally visible actions of the handlers, in program order. -/
inductive Action where
  | createAudioCtx
  | acquireMicStream
  | acquireDisplayStream
  | decodeFile
  | connectSession
  | startRecorder
  | startFileSource
  | acquireWakeLock
  | startTimer
  | stopRecorder
  | stopFileSource
  | stopTracks
  | closeAudioCtx
  | releaseWakeLock
  | clearTimer
  | clearSession
  | detachStream
  | sendFrame
  | alertUser
  | logError
  deriving DecidableEq

/-- The React state hooks and refs of the component (part_000 lines
28-47), plus `liveTrackCount`, a ghost counter of capture-track sets
that are live at the browser level (incremented when getUserMedia or
getDisplayMedia succeeds, decremented only by a `stopTracks` action on
the tracks, which the component never performs). -/
structure AppState where
  isRecording : Bool
  recordingTime : Nat
  transcribedText : String
  stream : Option Unit
  sourceMode : SourceMode
  youtubeId : Option Unit
  selectedFile : Option Unit
  mediaRecorderRef : Option MRState
  timerRef : Option Unit
  audioCtxRef : Option AudioCtxState
  wakeLockRef : Option Unit
  sessionPromiseRef : Option Unit
  fileAudioSourceRef : Option FileSourceState
  liveTrackCount : Nat
  deriving DecidableEq

/-- Trace chunk of `mediaRecorderRef.current.stop()` (guarded by the
recorder being non-null and not inactive, part_000 lines 70-72). -/
def recStopActs : Option MRState → List Action
  | some MRState.recording => [Action.stopRecorder]
  | _ => []

/-- Trace chunk of `fileAudioSourceRef.current.stop()` (part_000
lines 73-75). -/
def fsStopActs : Option FileSourceState → List Action
  | some _ => [Action.stopFileSource]
  | none => []

/-- Trace chunk of `audioCtxRef.current.close()` (part_000 lines 76-79). -/
def ctxCloseActs : Option AudioCtxState → List Action
  | some _ => [Action.closeAudioCtx]
  | none => []

/-- Trace chunk of `wakeLockRef.current.release()` (part_000 lines 82-85). -/
def wlReleaseActs : Option Unit → List Action
  | some _ => [Action.releaseWakeLock]
  | none => []

/-- Trace chunk of `window.clearInterval(timerRef.current)` (part_000
lines 86-89). -/
def tmClearActs : Option Unit → List Action
  | some _ => [Action.clearTimer]
  | none => []

/-- Embeds `stopRecording` (part_000 lines 68-93).  The whole body is
guarded by `isRecording`; inside, in program order: stop the recorder if
any and not inactive, stop the file source node if any (the ref is kept),
close the audio context and null its ref, set `isRecording` false,
release the wake lock and null its ref, clear the interval timer and
null its ref, null the session promise ref, and set the stream state to
null.  Capture-stream media tracks are never stopped. -/
def stopRecording (s : AppState) : AppState × List Action :=
  if s.isRecording then
    ({ s with
        isRecording := false
        mediaRecorderRef := s.mediaRecorderRef.map (fun _ => MRState.inactive)
        fileAudioSourceRef := s.fileAudioSourceRef.map (fun _ => { playing := false })
        audioCtxRef := none
        wakeLockRef := none
        timerRef := none
        sessionPromiseRef := none
        stream := none },
     recStopActs s.mediaRecorderRef ++ fsStopActs s.fileAudioSourceRef ++
     ctxCloseActs s.audioCtxRef ++ wlReleaseActs s.wakeLockRef ++
     tmClearActs s.timerRef ++ [Action.clearSession, Action.detachStream])
  else (s, [])

/-- Outcomes of the external calls made during `startConversion`. -/
structure StartEnv where
  micOk : Bool
  displayOk : Bool
  decodeOk : Bool
  recorderOk : Bool
  wakeLockOk : Bool
  deriving DecidableEq

/-- Embeds part_000 lines 223-227: `setIsRecording(true)`, the
best-effort wake-lock request (failure swallowed, lines 60-66), and
installing the 1-second interval timer. -/
def startFinish (s : AppState) (tr : List Action) (env : StartEnv) : AppState × List Action :=
  ({ s with
      isRecording := true
      wakeLockRef := if env.wakeLockOk then some () else none
      timerRef := some () },
   tr ++ (if env.wakeLockOk then [Action.acquireWakeLock] else []) ++ [Action.startTimer])

/-- Embeds part_000 lines 151-227 after a source was obtained:
`setStream`, transcript and time reset, the `ai.live.connect` call and
`sessionPromiseRef` assignment, then the capture branch (MediaRecorder
construction may throw, reaching the catch block of lines 229-232) or
the file-buffer branch, then `startFinish`.  `capture` is true when a
live capture stream (mic or display) was acquired. -/
def startWithSource (s : AppState) (tr : List Action) (capture : Bool) (env : StartEnv) :
    AppState × List Action :=
  let s2 := { s with
      stream := if capture then some () else none
      liveTrackCount := s.liveTrackCount + (if capture then 1 else 0)
      transcribedText := ""
      recordingTime := 0
      sessionPromiseRef := some () }
  let tr2 := tr ++ [Action.connectSession]
  if capture then
    if env.recorderOk then
      startFinish { s2 with mediaRecorderRef := some MRState.recording }
        (tr2 ++ [Action.startRecorder]) env
    else
      (s2, tr2 ++ [Action.logError, Action.alertUser])
  else
    startFinish { s2 with fileAudioSourceRef := some { playing := true } }
      (tr2 ++ [Action.startFileSource]) env

/-- Embeds the `sourceMode === 'audio' || sourceMode === 'video'` branch
(part_000 lines 141-149): without a selected file, alert and close the
just-created audio context, leaving the closed context in the ref;
otherwise decode the file (failure reaches the catch block). -/
def startFileBranch (s1 : AppState) (env : StartEnv) : AppState × List Action :=
  match s1.selectedFile with
  | none =>
      ({ s1 with audioCtxRef := some { closed := true } },
       [Action.createAudioCtx, Action.alertUser, Action.closeAudioCtx])
  | some _ =>
      if env.decodeOk then
        startWithSource s1 [Action.createAudioCtx, Action.decodeFile] false env
      else
        (s1, [Action.createAudioCtx, Action.logError, Action.alertUser])

/-- Embeds `startConversion` (part_000 lines 110-233).  When already
recording it performs `stopRecording` and returns.  Otherwise it first
creates an AudioContext and stores it in `audioCtxRef` (lines 119-120),
then branches on the source mode; every failure of an external call
falls into the catch block (lines 229-232), which only logs and alerts —
it releases nothing. -/
def startConversion (s : AppState) (env : StartEnv) : AppState × List Action :=
  if s.isRecording then stopRecording s
  else
    let s1 := { s with audioCtxRef := some { closed := false } }
    match s.sourceMode with
    | SourceMode.mic =>
        if env.micOk then
          startWithSource s1 [Action.createAudioCtx, Action.acquireMicStream] true env
        else
          (s1, [Action.createAudioCtx, Action.logError, Action.alertUser])
    | SourceMode.youtube =>
        match s.youtubeId with
        | none =>
            ({ s1 with audioCtxRef := some { closed := true } },
             [Action.createAudioCtx, Action.alertUser, Action.closeAudioCtx])
        | some _ =>
            if env.displayOk then
              startWithSource s1
                [Action.createAudioCtx, Action.alertUser, Action.acquireDisplayStream] true env
            else
              (s1, [Action.createAudioCtx, Action.alertUser, Action.logError, Action.alertUser])
    | SourceMode.video => startFileBranch s1 env
    | SourceMode.audio => startFileBranch s1 env

/-- Embeds the `onmessage` callback for a transcript-fragment event
(part_000 lines 165-170): functional state update appending the
fragment text to the transcript. -/
def onMessage (s : AppState) (t : String) : AppState :=
  { s with transcribedText := s.transcribedText ++ t }

/-- Embeds the `onerror` callback (part_000 line 171): it only logs. -/
def onErrorStep (s : AppState) : AppState × List Action := (s, [Action.logError])

/-- Embeds the `onclose` callback (part_000 line 172). -/
def onCloseStep (s : AppState) : AppState × List Action := stopRecording s

/-- Embeds one `onaudioprocess` tick's interaction with the session ref
(part_000 lines 187-191): `sessionPromiseRef.current?.then(send)` sends
one frame only when the ref is non-null. -/
def onTick (s : AppState) : AppState × List Action :=
  if s.sessionPromiseRef.isSome then (s, [Action.sendFrame]) else (s, [])

/-- Embeds one firing of the 1-second interval (part_000 lines 225-227);
it can only fire while the interval is installed. -/
def onTimer (s : AppState) : AppState × List Action :=
  if s.timerRef.isSome then ({ s with recordingTime := s.recordingTime + 1 }, []) else (s, [])

/-- Events the component reacts to: a start request with its external
outcomes, the service close callback, the file source natural end, the
service error callback, an audio tick, a timer firing, a transcript
fragment, a file selection, and a mode change (the mode buttons are
disabled while recording, part_000 line 253). -/
inductive Ev where
  | start (env : StartEnv)
  | close
  | ended
  | err
  | tick
  | timer
  | fragment (t : String)
  | selectFile
  | setMode (m : SourceMode)

/-- One event step of the component. -/
def step (s : AppState) : Ev → AppState × List Action
  | Ev.start env => startConversion s env
  | Ev.close => stopRecording s
  | Ev.ended => stopRecording s
  | Ev.err => onErrorStep s
  | Ev.tick => onTick s
  | Ev.timer => onTimer s
  | Ev.fragment t => (onMessage s t, [])
  | Ev.selectFile => ({ s with selectedFile := some () }, [])
  | Ev.setMode m =>
      if s.isRecording then (s, [])
      else ({ s with sourceMode := m, selectedFile := none }, [])

/-- Initial mount state of the component (part_000 lines 28-47). -/
def initState : AppState where
  isRecording := false
  recordingTime := 0
  transcribedText := ""
  stream := none
  sourceMode := SourceMode.mic
  youtubeId := none
  selectedFile := none
  mediaRecorderRef := none
  timerRef := none
  audioCtxRef := none
  wakeLockRef := none
  sessionPromiseRef := none
  fileAudioSourceRef := none
  liveTrackCount := 0

/-- States reachable from the mount state by event steps. -/
inductive Reachable : AppState → Prop
  | init : Reachable initState
  | step (s : AppState) (e : Ev) : Reachable s → Reachable (PiltongRecorder.step s e).1

/-- A concrete mic-mode recording state, as produced by a successful
microphone start. -/
def recState : AppState where
  isRecording := true
  recordingTime := 5
  transcribedText := ""
  stream := some ()
  sourceMode := SourceMode.mic
  youtubeId := none
  selectedFile := none
  mediaRecorderRef := some MRState.recording
  timerRef := some ()
  audioCtxRef := some { closed := false }
  wakeLockRef := some ()
  sessionPromiseRef := some ()
  fileAudioSourceRef := none
  liveTrackCount := 1

/-- A concrete idle state in audio-file mode with no file selected. -/
def idleAudioState : AppState :=
  { initState with sourceMode := SourceMode.audio }

/-- External outcomes where every call succeeds. -/
def envAllOk : StartEnv where
  micOk := true
  displayOk := true
  decodeOk := true
  recorderOk := true
  wakeLockOk := true

/-- External outcomes where the microphone permission is denied. -/
def envMicFail : StartEnv :=
  { envAllOk with micOk := false }

/-- Invariant tying a playing file-source node to its owning recording
session: while the node plays, the component is recording, holds the
session ref, and holds no capture stream. -/
def Inv (s : AppState) : Prop :=
  s.fileAudioSourceRef = some { playing := true } →
    s.stream = none ∧ s.isRecording = true ∧ s.sessionPromiseRef = some ()

theorem str_append_assoc (a b c : String) : a ++ b ++ c = a ++ (b ++ c) := by
  apply String.ext
  simp [String.data_append]

theorem join_cons (t : String) (ts : List String) :
    String.join (t :: ts) = t ++ String.join ts := by
  apply String.ext
  simp [String.join_eq, String.data_append]

theorem onMessage_foldl (texts : List String) (s : AppState) :
    (texts.foldl onMessage s).transcribedText = s.transcribedText ++ String.join texts := by
  induction texts generalizing s with
  | nil => simp [String.join_eq]
  | cons t ts ih =>
      rw [List.foldl_cons, ih, join_cons]
      simp only [onMessage]
      rw [str_append_assoc]

theorem encodeB64_zeros (k : Nat) (tail : List Nat) :
    encodeB64 (List.replicate (3 * k) 0 ++ tail) =
      List.replicate (4 * k) 'A' ++ encodeB64 tail := by
  induction k with
  | zero => simp
  | succ n ih =>
      have h3 : 3 * (n + 1) = (3 * n).succ.succ.succ := by omega
      have h4 : 4 * (n + 1) = (4 * n).succ.succ.succ.succ := by omega
      rw [h3, h4]
      simp only [List.replicate_succ, List.cons_append, encodeB64, List.append_eq]
      rw [ih]
      norm_num [b64Char, b64Chars]

theorem sampleBytes_zero : sampleBytes 0 = [0, 0] := by
  norm_num [sampleBytes, sampleToInt16, jsTrunc, toInt16]

theorem pcmBytes_replicate_zero (n : Nat) :
    pcmBytes (List.replicate n 0) = List.replicate (2 * n) 0 := by
  induction n with
  | zero => simp [pcmBytes]
  | succ m ih =>
      have h2 : 2 * (m + 1) = (2 * m).succ.succ := by omega
      rw [List.replicate_succ, h2, List.replicate_succ, List.replicate_succ]
      simp only [pcmBytes, sampleBytes_zero, ih]
      rfl

theorem jsTrunc_bounds {q : ℚ} (h1 : -32768 ≤ q) (h2 : q < 32768) :
    -32768 ≤ jsTrunc q ∧ jsTrunc q < 32768 := by
  unfold jsTrunc
  split
  · constructor
    · exact Int.le_floor.mpr (by exact_mod_cast h1)
    · exact Int.floor_lt.mpr (by exact_mod_cast h2)
  · rename_i hneg
    push_neg at hneg
    constructor
    · have hc := Int.le_ceil q
      have h3 : (-32768 : ℚ) ≤ (⌈q⌉ : ℚ) := le_trans h1 hc
      exact_mod_cast h3
    · have h3 : ⌈q⌉ ≤ 0 := Int.ceil_le.mpr (by exact_mod_cast le_of_lt hneg)
      omega

theorem recStopActs_sub (r : Option MRState) (a : Action) (h : a ∈ recStopActs r) :
    a = Action.stopRecorder := by
  rcases r with _ | m
  · simp [recStopActs] at h
  · rcases m
    · simp [recStopActs] at h
    · simp [recStopActs] at h
      exact h

theorem fsStopActs_sub (r : Option FileSourceState) (a : Action) (h : a ∈ fsStopActs r) :
    a = Action.stopFileSource := by
  rcases r with _ | f <;> simp [fsStopActs] at h
  exact h

theorem ctxCloseActs_sub (r : Option AudioCtxState) (a : Action) (h : a ∈ ctxCloseActs r) :
    a = Action.closeAudioCtx := by
  rcases r with _ | c <;> simp [ctxCloseActs] at h
  exact h

theorem wlReleaseActs_sub (r : Option Unit) (a : Action) (h : a ∈ wlReleaseActs r) :
    a = Action.releaseWakeLock := by
  rcases r with _ | w <;> simp [wlReleaseActs] at h
  exact h

theorem tmClearActs_sub (r : Option Unit) (a : Action) (h : a ∈ tmClearActs r) :
    a = Action.clearTimer := by
  rcases r with _ | t <;> simp [tmClearActs] at h
  exact h

theorem stop_trace_subset (s : AppState) :
    ∀ a ∈ (stopRecording s).2, a = Action.stopRecorder ∨ a = Action.stopFileSource ∨
      a = Action.closeAudioCtx ∨ a = Action.releaseWakeLock ∨ a = Action.clearTimer ∨
      a = Action.clearSession ∨ a = Action.detachStream := by
  intro a ha
  by_cases h : s.isRecording = true
  · simp only [stopRecording, h, if_true, List.append_assoc, List.mem_append,
      List.mem_cons, List.mem_singleton] at ha
    rcases ha with h1 | h1 | h1 | h1 | h1 | h1 | h1 | h1
    · exact Or.inl (recStopActs_sub _ _ h1)
    · exact Or.inr (Or.inl (fsStopActs_sub _ _ h1))
    · exact Or.inr (Or.inr (Or.inl (ctxCloseActs_sub _ _ h1)))
    · exact Or.inr (Or.inr (Or.inr (Or.inl (wlReleaseActs_sub _ _ h1))))
    · exact Or.inr (Or.inr (Or.inr (Or.inr (Or.inl (tmClearActs_sub _ _ h1)))))
    · exact Or.inr (Or.inr (Or.inr (Or.inr (Or.inr (Or.inl h1)))))
    · exact Or.inr (Or.inr (Or.inr (Or.inr (Or.inr (Or.inr h1)))))
    · simp at h1
  · simp only [Bool.not_eq_true] at h
    simp [stopRecording, h] at ha

theorem stop_trace_shape (s : AppState) (h : s.isRecording = true) :
    ∃ l, (stopRecording s).2 = l ++ [Action.clearSession, Action.detachStream] ∧
      Action.clearSession ∉ l ∧ Action.connectSession ∉ (stopRecording s).2 := by
  refine ⟨recStopActs s.mediaRecorderRef ++ fsStopActs s.fileAudioSourceRef ++
    ctxCloseActs s.audioCtxRef ++ wlReleaseActs s.wakeLockRef ++ tmClearActs s.timerRef,
    ?_, ?_, ?_⟩
  · simp [stopRecording, h]
  · intro hmem
    simp only [List.append_assoc, List.mem_append] at hmem
    rcases hmem with h1 | h1 | h1 | h1 | h1
    · exact absurd (recStopActs_sub _ _ h1) (by decide)
    · exact absurd (fsStopActs_sub _ _ h1) (by decide)
    · exact absurd (ctxCloseActs_sub _ _ h1) (by decide)
    · exact absurd (wlReleaseActs_sub _ _ h1) (by decide)
    · exact absurd (tmClearActs_sub _ _ h1) (by decide)
  · intro hmem
    rcases stop_trace_subset s _ hmem with h1 | h1 | h1 | h1 | h1 | h1 | h1 <;> simp at h1
theorem inv_preserved (s : AppState) (hInv : Inv s) (e : Ev) : Inv (step s e).1 := by
  have hstop : Inv (stopRecording s).1 := by
    intro hh
    by_cases h : s.isRecording = true
    · simp only [stopRecording, h, if_true] at hh
      rcases s.fileAudioSourceRef with _ | f <;> simp_all
    · simp only [Bool.not_eq_true] at h
      simp only [stopRecording, h] at hh
      simp only [Bool.false_eq_true, if_false] at hh
      exact absurd ((hInv hh).2.1) (by simp [h])
  cases e with
  | close => exact hstop
  | ended => exact hstop
  | err => exact hInv
  | tick =>
      simp only [step, onTick]
      split <;> exact hInv
  | timer =>
      simp only [step, onTimer]
      split
      · intro hh
        exact hInv hh
      · exact hInv
  | fragment t =>
      intro hh
      exact hInv hh
  | selectFile =>
      intro hh
      exact hInv hh
  | setMode m =>
      simp only [step]
      split
      · exact hInv
      · intro hh
        exact hInv hh
  | start env =>
      by_cases hr : s.isRecording = true
      · simp only [step, startConversion, hr, if_true]
        exact hstop
      · simp only [Bool.not_eq_true] at hr
        have hfs : s.fileAudioSourceRef ≠ some { playing := true } := by
          intro hh
          exact absurd ((hInv hh).2.1) (by simp [hr])
        simp only [step, startConversion, hr, Bool.false_eq_true, if_false]
        rcases hm : s.sourceMode
        · -- mic
          rcases he : env.micOk
          · simp only [Bool.false_eq_true, if_false]
            intro hh
            exact absurd hh hfs
          · simp only [if_true, startWithSource, startFinish]
            rcases hrec : env.recorderOk
            all_goals simp only [Bool.false_eq_true, if_false, if_true]
            all_goals intro hh
            all_goals exact absurd hh hfs
        · -- youtube
          rcases hy : s.youtubeId with _ | y
          · intro hh
            exact absurd hh hfs
          · rcases he : env.displayOk
            · simp only [Bool.false_eq_true, if_false]
              intro hh
              exact absurd hh hfs
            · simp only [if_true, startWithSource, startFinish]
              rcases hrec : env.recorderOk
              all_goals simp only [Bool.false_eq_true, if_false, if_true]
              all_goals intro hh
              all_goals exact absurd hh hfs
        · -- video
          simp only [startFileBranch]
          rcases hf : s.selectedFile with _ | f
          · intro hh
            exact absurd hh hfs
          · rcases he : env.decodeOk
            · simp only [Bool.false_eq_true, if_false]
              intro hh
              exact absurd hh hfs
            · simp only [if_true, startWithSource, startFinish]
              intro hh
              exact ⟨rfl, rfl, rfl⟩
        · -- audio
          simp only [startFileBranch]
          rcases hf : s.selectedFile with _ | f
          · intro hh
            exact absurd hh hfs
          · rcases he : env.decodeOk
            · simp only [Bool.false_eq_true, if_false]
              intro hh
              exact absurd hh hfs
            · simp only [if_true, startWithSource, startFinish]
              intro hh
              exact ⟨rfl, rfl, rfl⟩

theorem inv_reachable (s : AppState) (h : Reachable s) : Inv s := by
  induction h with
  | init => intro hh; simp [initState] at hh
  | step s e _ ih => exact inv_preserved s ih e

/-- C1: for every non-recording state, after a successful microphone
start (which resets the Transcript Buffer) and any sequence of N
transcript-fragment events, the buffer equals the ordered concatenation
of the N fragments' text with no added separators. -/
theorem transcript_concat (s : AppState) (env : StartEnv) (texts : List String)
    (hr : s.isRecording = false) (hm : s.sourceMode = SourceMode.mic)
    (he : env.micOk = true) :
    (texts.foldl onMessage (startConversion s env).1).transcribedText = String.join texts := by
  rw [onMessage_foldl]
  have hempty : (startConversion s env).1.transcribedText = "" := by
    rcases hrec : env.recorderOk <;>
      simp [startConversion, hr, hm, he, hrec, startWithSource, startFinish]
  rw [hempty]
  exact String.empty_append _

/-- C1 witness: the spec scenario — fragments "hel" then "lo world"
yield the buffer "hello world". -/
theorem transcript_concat_witness :
    (["hel", "lo world"].foldl onMessage (startConversion initState envAllOk).1).transcribedText
      = "hello world" := by
  have h := transcript_concat initState envAllOk ["hel", "lo world"] rfl rfl rfl
  rw [h]
  rfl

/-- C2: stop is idempotent — on any state, a second `stopRecording`
right after a first one changes nothing and performs no release action
(so no resource is released twice and nothing can throw). -/
theorem stop_idem (s : AppState) :
    stopRecording (stopRecording s).1 = ((stopRecording s).1, []) := by
  by_cases h : s.isRecording = true
  · simp [stopRecording, h]
  · simp only [Bool.not_eq_true] at h
    simp [stopRecording, h]

/-- C3 counterexample: it is not the case that teardown clears the
session reference before any other release — on a standard mic-mode
recording state the first teardown action is stopping the recorder, not
clearing the session. -/
theorem stop_clears_session_cex :
    ¬ (∀ s : AppState, s.isRecording = true →
        ∀ a l, (stopRecording s).2 = a :: l → a = Action.clearSession) := by
  intro h
  have h2 := h recState rfl Action.stopRecorder
    [Action.closeAudioCtx, Action.releaseWakeLock, Action.clearTimer,
     Action.clearSession, Action.detachStream] (by decide)
  exact absurd h2 (by decide)

/-- C3 amended: teardown does clear the session reference, but as the
second-to-last step — only the UI stream detach comes after it; all
other releases precede it.  Because teardown runs synchronously on the
single thread, a tick arriving after it still cannot send on the closed
session: the tick sees a null session ref and performs no send. -/
theorem stop_clears_session_late (s : AppState) (h : s.isRecording = true) :
    (∃ l, (stopRecording s).2 = l ++ [Action.clearSession, Action.detachStream] ∧
      Action.clearSession ∉ l) ∧
    onTick (stopRecording s).1 = ((stopRecording s).1, []) := by
  obtain ⟨l, h1, h2, _⟩ := stop_trace_shape s h
  refine ⟨⟨l, h1, h2⟩, ?_⟩
  simp [onTick, stopRecording, h]

/-- C3 amended witness at the concrete mic-mode recording state. -/
theorem stop_clears_session_late_witness :
    (∃ l, (stopRecording recState).2 = l ++ [Action.clearSession, Action.detachStream] ∧
      Action.clearSession ∉ l) ∧
    onTick (stopRecording recState).1 = ((stopRecording recState).1, []) :=
  stop_clears_session_late recState rfl

/-- C4 counterexample: the stop procedure does not stop the capture
device's media tracks — on a mic-mode recording state no `stopTracks`
action occurs in the teardown trace. -/
theorem stop_releases_cex :
    ¬ (∀ s : AppState, s.isRecording = true → Action.stopTracks ∈ (stopRecording s).2) := by
  intro h
  exact absurd (h recState rfl) (by decide)

/-- C4 amended: on every transition out of Recording, stop closes the
audio context, clears the timer, releases the wake lock, clears the
session reference and detaches the stream from the UI — but it never
stops the capture device's media tracks, which remain live. -/
theorem stop_releases_parts (s : AppState) (h : s.isRecording = true)
    (hc : s.audioCtxRef.isSome = true) (hw : s.wakeLockRef.isSome = true)
    (ht : s.timerRef.isSome = true) :
    ((stopRecording s).1.isRecording = false ∧ (stopRecording s).1.audioCtxRef = none ∧
      (stopRecording s).1.wakeLockRef = none ∧ (stopRecording s).1.timerRef = none ∧
      (stopRecording s).1.sessionPromiseRef = none ∧ (stopRecording s).1.stream = none) ∧
    (Action.closeAudioCtx ∈ (stopRecording s).2 ∧ Action.releaseWakeLock ∈ (stopRecording s).2 ∧
      Action.clearTimer ∈ (stopRecording s).2 ∧ Action.clearSession ∈ (stopRecording s).2 ∧
      Action.detachStream ∈ (stopRecording s).2) ∧
    Action.stopTracks ∉ (stopRecording s).2 ∧
    (stopRecording s).1.liveTrackCount = s.liveTrackCount := by
  obtain ⟨c, hc⟩ := Option.isSome_iff_exists.mp hc
  obtain ⟨w, hw⟩ := Option.isSome_iff_exists.mp hw
  obtain ⟨t, ht⟩ := Option.isSome_iff_exists.mp ht
  refine ⟨?_, ?_, ?_, ?_⟩
  · simp [stopRecording, h]
  · simp [stopRecording, h, hc, hw, ht, ctxCloseActs, wlReleaseActs, tmClearActs]
  · intro hmem
    rcases stop_trace_subset s _ hmem with h1 | h1 | h1 | h1 | h1 | h1 | h1 <;> simp at h1
  · simp [stopRecording, h]

/-- C4 amended witness at the concrete mic-mode recording state. -/
theorem stop_releases_witness :
    ((stopRecording recState).1.isRecording = false ∧
      (stopRecording recState).1.audioCtxRef = none ∧
      (stopRecording recState).1.wakeLockRef = none ∧
      (stopRecording recState).1.timerRef = none ∧
      (stopRecording recState).1.sessionPromiseRef = none ∧
      (stopRecording recState).1.stream = none) ∧
    (Action.closeAudioCtx ∈ (stopRecording recState).2 ∧
      Action.releaseWakeLock ∈ (stopRecording recState).2 ∧
      Action.clearTimer ∈ (stopRecording recState).2 ∧
      Action.clearSession ∈ (stopRecording recState).2 ∧
      Action.detachStream ∈ (stopRecording recState).2) ∧
    Action.stopTracks ∉ (stopRecording recState).2 ∧
    (stopRecording recState).1.liveTrackCount = recState.liveTrackCount :=
  stop_releases_parts recState rfl rfl rfl rfl

/-- C5 counterexample: a start in audio mode with no file selected does
not leave the program state unchanged — starting from the idle
audio-mode state, `audioCtxRef` afterwards holds the created-then-closed
audio context instead of `none`. -/
theorem start_nofile_cex :
    ¬ (∀ (s : AppState) (env : StartEnv), s.isRecording = false →
        s.sourceMode = SourceMode.audio → s.selectedFile = none →
        (startConversion s env).1 = s) := by
  intro h
  exact absurd (h idleAudioState envAllOk rfl rfl rfl) (by decide)

/-- C5 amended: a start in audio mode with no file selected alerts,
acquires no stream, session, recorder, timer or wake lock, stays out of
Recording, and leaves every field unchanged except `audioCtxRef`, which
is left holding the audio context that was created and immediately
closed. -/
theorem start_nofile (s : AppState) (env : StartEnv) (hr : s.isRecording = false)
    (hm : s.sourceMode = SourceMode.audio) (hf : s.selectedFile = none) :
    startConversion s env = ({ s with audioCtxRef := some { closed := true } },
      [Action.createAudioCtx, Action.alertUser, Action.closeAudioCtx]) := by
  simp [startConversion, hr, hm, startFileBranch, hf]

/-- C5 amended witness at the concrete idle audio-mode state. -/
theorem start_nofile_witness :
    startConversion idleAudioState envAllOk =
      ({ idleAudioState with audioCtxRef := some { closed := true } },
        [Action.createAudioCtx, Action.alertUser, Action.closeAudioCtx]) :=
  start_nofile idleAudioState envAllOk rfl rfl rfl

/-- C6 counterexample: an acquisition failure does not release the
already-created audio context — after a denied microphone request the
catch block leaves `audioCtxRef` holding an open context. -/
theorem start_failure_cex :
    ¬ (∀ (s : AppState) (env : StartEnv), s.isRecording = false →
        s.sourceMode = SourceMode.mic → env.micOk = false →
        (startConversion s env).1.audioCtxRef ≠ some { closed := false }) := by
  intro h
  exact absurd (by decide : (startConversion initState envMicFail).1.audioCtxRef
    = some { closed := false }) (h initState envMicFail rfl rfl rfl)

/-- C6 amended: on a pre-connect acquisition failure (microphone or
display permission denied, or file decode failure) the start procedure
logs and surfaces an alert and the state stays out of Recording with no
session opened and no tracks acquired, but nothing is released: the
created audio context remains open in `audioCtxRef`. -/
theorem start_failure (s : AppState) (env : StartEnv) (hr : s.isRecording = false)
    (hfail : s.sourceMode = SourceMode.mic ∧ env.micOk = false ∨
      s.sourceMode = SourceMode.youtube ∧ s.youtubeId.isSome = true ∧ env.displayOk = false ∨
      (s.sourceMode = SourceMode.audio ∨ s.sourceMode = SourceMode.video) ∧
        s.selectedFile.isSome = true ∧ env.decodeOk = false) :
    Action.alertUser ∈ (startConversion s env).2 ∧
    (startConversion s env).1.isRecording = false ∧
    (startConversion s env).1.audioCtxRef = some { closed := false } ∧
    (startConversion s env).1.sessionPromiseRef = s.sessionPromiseRef ∧
    Action.connectSession ∉ (startConversion s env).2 ∧
    Action.stopTracks ∉ (startConversion s env).2 ∧
    (startConversion s env).1.liveTrackCount = s.liveTrackCount := by
  rcases hfail with ⟨hm, he⟩ | ⟨hm, hy, he⟩ | ⟨hm, hf, he⟩
  · simp [startConversion, hr, hm, he]
  · obtain ⟨y, hy⟩ := Option.isSome_iff_exists.mp hy
    simp [startConversion, hr, hm, hy, he]
  · obtain ⟨f, hf⟩ := Option.isSome_iff_exists.mp hf
    rcases hm with hm | hm <;> simp [startConversion, startFileBranch, hr, hm, hf, he]

/-- C6 amended witness: microphone permission denied from the mount
state. -/
theorem start_failure_witness :
    Action.alertUser ∈ (startConversion initState envMicFail).2 ∧
    (startConversion initState envMicFail).1.isRecording = false ∧
    (startConversion initState envMicFail).1.audioCtxRef = some { closed := false } ∧
    (startConversion initState envMicFail).1.sessionPromiseRef = initState.sessionPromiseRef ∧
    Action.connectSession ∉ (startConversion initState envMicFail).2 ∧
    Action.stopTracks ∉ (startConversion initState envMicFail).2 ∧
    (startConversion initState envMicFail).1.liveTrackCount = initState.liveTrackCount :=
  start_failure initState envMicFail rfl (Or.inl ⟨rfl, rfl⟩)

/-- C7 counterexample: the service error callback does not funnel into
the stop procedure — on a recording state it leaves the state recording,
whereas stop would end it. -/
theorem onerror_cex :
    ¬ (∀ s : AppState, (onErrorStep s).1 = (stopRecording s).1) := by
  intro h
  exact absurd (h recState) (by decide)

/-- C7 amended: the error callback only logs the error and leaves the
whole state unchanged; it is the close callback, not the error callback,
that funnels into the single stop procedure. -/
theorem onerror_logs_only (s : AppState) :
    (onErrorStep s).1 = s ∧ (onErrorStep s).2 = [Action.logError] ∧
      onCloseStep s = stopRecording s :=
  ⟨rfl, rfl, rfl⟩

/-- C8: the PCM frame encoder stores, for every input sample x, exactly
the value obtained by multiplying x by 32768 and truncating toward zero,
wrapped modulo 2^16 into the signed 16-bit range with no clamping: the
stored value always lies in [-32768, 32768) and is congruent mod 2^16 to
the truncated product, and whenever the truncated product already fits
(in particular for -1 ≤ x < 1) it is stored unchanged — out-of-range
samples wrap silently instead of saturating. -/
theorem pcm_formula (x : ℚ) :
    ((-32768 ≤ sampleToInt16 x ∧ sampleToInt16 x < 32768) ∧
      sampleToInt16 x % 65536 = jsTrunc (x * 32768) % 65536) ∧
      (-1 ≤ x → x < 1 → sampleToInt16 x = jsTrunc (x * 32768)) := by
  refine ⟨⟨?_, ?_⟩, ?_⟩
  · unfold sampleToInt16 toInt16
    split <;> omega
  · unfold sampleToInt16 toInt16
    split <;> omega
  · intro h1 h2
    have hq1 : (-32768 : ℚ) ≤ x * 32768 := by nlinarith
    have hq2 : x * 32768 < 32768 := by nlinarith
    have hb := jsTrunc_bounds hq1 hq2
    unfold sampleToInt16 toInt16
    split <;> omega

/-- C8 witness: the in-range sample 1/2 encodes to its scaled value
16384, and the out-of-range sample 3/2 wraps to -16384 instead of
saturating at 32767. -/
theorem pcm_formula_witness :
    sampleToInt16 (1 / 2) = 16384 ∧ sampleToInt16 (3 / 2) = -16384 := by
  constructor
  · have h := (pcm_formula (1 / 2)).2 (by norm_num) (by norm_num)
    rw [h]
    norm_num [jsTrunc]
  · norm_num [sampleToInt16, jsTrunc, toInt16]

/-- C9: the frame built from an all-zero block of 4096 samples has the
same encoding as 8192 zero bytes, and that encoding is the one fixed
Base64 string made of 10923 'A' characters followed by one '=' (length
10924). -/
theorem zero_frame_base64 :
    frameBase64 (List.replicate 4096 (0 : ℚ)) = encode (List.replicate 8192 0) ∧
    frameBase64 (List.replicate 4096 (0 : ℚ)) =
      String.mk (List.replicate 10923 'A' ++ ['=']) := by
  have hbytes : pcmBytes (List.replicate 4096 (0 : ℚ)) = List.replicate 8192 0 := by
    rw [pcmBytes_replicate_zero]
  constructor
  · rw [frameBase64, hbytes]
  · rw [frameBase64, hbytes]
    have h : (8192 : Nat) = 3 * 2730 + 2 := by norm_num
    rw [h, List.replicate_add]
    unfold encode
    rw [encodeB64_zeros]
    have h2 : encodeB64 (List.replicate 2 0) = ['A', 'A', 'A', '='] := by
      norm_num [List.replicate, encodeB64, b64Char, b64Chars]
    rw [h2]
    have h3 : (10923 : Nat) = 4 * 2730 + 3 := by norm_num
    rw [h3, List.replicate_add, List.append_assoc]
    rfl

/-- C10: in every reachable state at most one audio source and one
session are active — a playing file-source node excludes a held capture
stream (and goes with the single held session ref) — and a start request
while recording performs exactly the stop procedure, never opening a
second source or session (no connect or acquire action occurs). -/
theorem single_active (s : AppState) (h : Reachable s) :
    (s.fileAudioSourceRef = some { playing := true } →
      s.stream = none ∧ s.sessionPromiseRef = some ()) ∧
    ∀ env : StartEnv, s.isRecording = true →
      startConversion s env = stopRecording s ∧
      Action.connectSession ∉ (startConversion s env).2 ∧
      Action.acquireMicStream ∉ (startConversion s env).2 ∧
      Action.acquireDisplayStream ∉ (startConversion s env).2 ∧
      Action.startFileSource ∉ (startConversion s env).2 := by
  have hInv := inv_reachable s h
  constructor
  · intro hh
    exact ⟨(hInv hh).1, (hInv hh).2.2⟩
  · intro env hr
    have heq : startConversion s env = stopRecording s := by simp [startConversion, hr]
    refine ⟨heq, ?_, ?_, ?_, ?_⟩ <;> rw [heq] <;> intro hmem <;>
      rcases stop_trace_subset s _ hmem with h1 | h1 | h1 | h1 | h1 | h1 | h1 <;> simp at h1

/-- C10 witness: in the reachable recording state produced by one
successful mic start, a second start request equals the stop procedure
and opens no session. -/
theorem single_active_witness :
    startConversion (step initState (Ev.start envAllOk)).1 envAllOk =
      stopRecording (step initState (Ev.start envAllOk)).1 ∧
    Action.connectSession ∉
      (startConversion (step initState (Ev.start envAllOk)).1 envAllOk).2 :=
  have h := (single_active (step initState (Ev.start envAllOk)).1
    (Reachable.step initState (Ev.start envAllOk) Reachable.init)).2 envAllOk (by decide)
  ⟨h.1, h.2.1⟩

end PiltongRecorder
